import Mathlib

/-!
# Verification of the openERCOT generator-economics / dispatch-construction pipeline

Shallow embedding of the parts of the repository that the specification's
claims are about:

* the horizon chunker / stitcher (`SimulationParams.set_size` / `overlap`,
  `src/scenario.py`; the chunking code itself is not in the provided sources,
  so it is modelled from the spec, see `horizonChunks`),
* the pandas linear interpolation used to fill gaps in hourly / monthly
  series (`src/eia_data.py get_fuel_costs`, `src/ercot_data.py`),
* the fuel-cost table construction (`src/main.py get_fuel_costs`),
* the generator build with its zone join (`src/main.py build_generators`)
  and the per-unit bid / availability construction of
  `src/main.py build_network`,
* the scenario validator (`src/utils.py validate_dict` / `load_scenario`).

Numeric values are modelled as `ℚ`; a pandas `NaN` (missing value) is
modelled as `none : Option ℚ`.
-/

/-! ## Horizon chunker & stitcher (spec §4.4)

Modelled from the spec: the chunking / stitching implementation is not among
the provided source files (`src/scenario.py` only declares the
`set_size` / `overlap` parameters), so the definitions below follow the
spec's words: chunks are the index ranges `[i*S, i*S + S + O)` for
`i = 0, 1, …` clipped to the horizon, plus a final remainder chunk for the
snapshots not divisible by `S`; after solving, each chunk contributes its
first `S` snapshots to the stitched output; with `S = 0` the whole horizon
is one chunk.  A snapshot is identified with its index `0, …, N-1` in the
horizon. -/

/-- Modelled from the spec: the list of chunks produced for a horizon of
length `N`, chunk size `S` and overlap `O` (missing from src/: the
chunker of the rolling-horizon pipeline). -/
def horizonChunks (N S O : ℕ) : List (List ℕ) :=
  if S = 0 then [List.range N]
  else
    ((List.range (N / S)).map fun i => List.range' (i * S) (min (S + O) (N - i * S)))
      ++ (if N % S = 0 then [] else [List.range' (N / S * S) (N % S)])

/-- Modelled from the spec: the stitched output — each chunk restricted to
its first `S` snapshots, concatenated in order (with `S = 0` the single
chunk is kept whole). -/
def stitchedHorizon (N S O : ℕ) : List ℕ :=
  if S = 0 then (horizonChunks N S O).flatten
  else ((horizonChunks N S O).map (List.take S)).flatten

/-! ## pandas linear interpolation (`src/eia_data.py get_fuel_costs`,
`src/ercot_data.py`)

`DataFrame.interpolate()` with its defaults (`method="linear"`,
`limit_direction="forward"`) works positionally on each column: a missing
value with no earlier valid value stays missing; a missing value lying
between two valid values is filled by linear interpolation on positions;
a missing value after the last valid value is filled with that last valid
value.  A column is a `List (Option ℚ)`, `none` being `NaN`. -/

/-- The last valid entry strictly before position `i`: `prevValid v i`
returns `some (j, x)` for the greatest `j < i` with `v[j] = some x`. -/
def prevValid (v : List (Option ℚ)) : ℕ → Option (ℕ × ℚ)
  | 0 => none
  | j + 1 =>
    match v.getD j none with
    | some x => some (j, x)
    | none => prevValid v j

/-- Search for the first valid entry at position ≥ `i`, scanning at most
`fuel` positions. -/
def nextValidAux (v : List (Option ℚ)) : ℕ → ℕ → Option (ℕ × ℚ)
  | 0, _ => none
  | fuel + 1, i =>
    match v.getD i none with
    | some x => some (i, x)
    | none => nextValidAux v fuel (i + 1)

/-- The first valid entry strictly after position `i`. -/
def nextValid (v : List (Option ℚ)) (i : ℕ) : Option (ℕ × ℚ) :=
  nextValidAux v (v.length - (i + 1)) (i + 1)

/-- The value of `interpolate()` at one position (pandas defaults, positional linear). -/
def interpAt (v : List (Option ℚ)) (i : ℕ) : Option ℚ :=
  match v.getD i none with
  | some x => some x
  | none =>
    match prevValid v i with
    | none => none
    | some (j, xj) =>
      match nextValid v i with
      | none => some xj
      | some (k, xk) => some (xj + (xk - xj) * ((i : ℚ) - (j : ℚ)) / ((k : ℚ) - (j : ℚ)))

/-- The interpolated column, as produced by `DataFrame.interpolate()` in
`get_fuel_costs` (`src/eia_data.py` line 156). -/
def interpolateSeries (v : List (Option ℚ)) : List (Option ℚ) :=
  (List.range v.length).map (interpAt v)

/-! ## Fuel-cost table (`src/main.py get_fuel_costs`, lines 227-245)

`pd.DataFrame(data).replace(to_replace=0, value=np.nan).dropna()` followed by
`pivot_table(index="period", columns="fueltypeid", values="cost-per-btu",
aggfunc="mean")`.  A raw API record is a `FuelReading`; a month ("period",
the `"YYYY-MM"` string index) is a `(year, month)` pair; an invalid /
non-numeric cost is `none`. -/

structure FuelReading where
  period : ℕ × ℕ
  fueltypeid : String
  cost : Option ℚ
deriving DecidableEq

/-- Embeds `replace(to_replace=0, value=np.nan).dropna()`: zero readings become
`NaN` and rows holding a `NaN` are dropped. -/
def keptReadings (data : List FuelReading) : List FuelReading :=
  data.filter fun r =>
    match r.cost with
    | some c => c != 0
    | none => false

/-- The surviving cost values for one `(month, fuel-type)` cell of the
pivot table. -/
def fuelReadingsFor (data : List FuelReading) (m : ℕ × ℕ) (f : String) : List ℚ :=
  ((keptReadings data).filter fun r => r.period == m && r.fueltypeid == f).filterMap
    (·.cost)

/-- The pivoted `(month, fuel-type) → mean cost` table; `pivot_table`
drops empty groups, so a cell with no surviving reading is `none`
(a lookup on it raises `KeyError` in `build_network`). -/
def buildFuelTable (data : List FuelReading) : (ℕ × ℕ) → String → Option ℚ := fun m f =>
  if (fuelReadingsFor data m f).isEmpty then none
  else some ((fuelReadingsFor data m f).sum / (fuelReadingsFor data m f).length)

/-! ## Unit registry and `build_generators` (`src/main.py` lines 288-298) -/

/-- One row of the EIA unit registry (`get_eia_unit_data`).  The registry
reports the first operating month (`"operating-year-month"`); the last
observed operating month comes from the registry snapshot.  `build_network`
fetches but never consults these two fields. -/
structure RawUnit where
  plantid : ℕ
  generatorid : String
  technology : String
  county : String
  nameplate : Option ℚ
  energy_source_code : String
  firstOpMonth : ℕ × ℕ
  lastOpMonth : ℕ × ℕ
deriving DecidableEq

/-- A unit after the two left merges of `build_generators`: the
county→zone join (`zone_to_county.csv`) and the plant-level heat-rate
join.  `none` models the `NaN` a failed left join leaves behind (a
plant-level heat rate that is itself `NaN` is likewise modelled as a
missing entry of `plantHeatRates`). -/
structure GenUnit extends RawUnit where
  weather_zone : Option String
  heatRate : Option ℚ
deriving DecidableEq

/-- Embeds `build_generators`: `units.merge(county_to_zone, how="left",
on="county")` then `units.merge(heatrates, left_on="plantid",
right_on="plantCode", how="left")`.  Both joins are left joins: every
unit survives, unmatched keys leaving `NaN` columns. -/
def buildGenerators (countyToZone : List (String × String))
    (plantHeatRates : List (ℕ × ℚ)) (units : List RawUnit) : List GenUnit :=
  units.map fun u =>
    { toRawUnit := u
      weather_zone := countyToZone.lookup u.county
      heatRate := plantHeatRates.lookup u.plantid }

/-! ## `build_network` (`src/main.py` lines 301-475) -/

/-- Embeds `generators.groupby("technology")["heatRate"].mean().dropna()`:
`mean` skips `NaN`s, `dropna` removes technologies with no data. -/
def techMeanHeatRate (gens : List GenUnit) (tech : String) : Option ℚ :=
  let l := (gens.filter fun u => u.technology == tech).filterMap (·.heatRate)
  if l.isEmpty then none else some (l.sum / l.length)

/-- The table `default_heat_rates` (lines 327-334): the technology-level mean with
five hardcoded overrides from EIA Table 8.2. -/
def defaultHeatRates (gens : List GenUnit) (tech : String) : Option ℚ :=
  if tech = "Natural Gas Internal Combustion Engine" then some (8894 / 1000)
  else if tech = "Landfill Gas" then some (11030 / 1000)
  else if tech = "Other Waste Biomass" then some (11030 / 1000)
  else if tech = "Petroleum Coke" then some (10026 / 1000)
  else if tech = "All Other" then some (11030 / 1000)
  else techMeanHeatRate gens tech

/-- The dict `TECHNOLOGY_MAP` (lines 54-70); a lookup on a missing key raises
`KeyError`, hence `Option`. -/
def technologyMap : String → Option String
  | "Wood/Wood Waste Biomass" => some "biomass"
  | "Petroleum Liquids" => some "other"
  | "Petroleum Coke" => some "coal"
  | "Other Waste Biomass" => some "other"
  | "Natural Gas Fired Combined Cycle" => some "gascc"
  | "Natural Gas Fired Combustion Turbine" => some "gas"
  | "Natural Gas Internal Combustion Engine" => some "gas"
  | "Natural Gas Steam Turbine" => some "gas"
  | "Landfill Gas" => some "gas"
  | "Conventional Steam Coal" => some "coal"
  | "All Other" => some "other"
  | "WIND" => some "wind"
  | "NUCLEAR" => some "nuclear"
  | "LANDFILL GAS" => some "other"
  | "SOLAR" => some "solar"
  | _ => none

/-- Auxiliary for Python's substring test: does `s` start with `pat`? -/
def isPrefixOfB : List Char → List Char → Bool
  | [], _ => true
  | _ :: _, [] => false
  | a :: as, b :: bs => a == b && isPrefixOfB as bs

/-- Does `pat` occur as a contiguous sublist of `s`? -/
def hasSubList (pat : List Char) : List Char → Bool
  | [] => isPrefixOfB pat []
  | c :: rest => isPrefixOfB pat (c :: rest) || hasSubList pat rest

/-- Python's `pat in s` substring test on strings. -/
def strHasSub (s pat : String) : Bool :=
  hasSubList pat.toList s.toList

/-- Calendar order on `(year, month)` pairs. -/
def monthLe (a b : ℕ × ℕ) : Bool :=
  decide (a.1 < b.1 ∨ (a.1 = b.1 ∧ a.2 ≤ b.2))

/-- The spec's operating window: first operating month through last
observed operating month (spec §4.3, glossary).  `build_network` never
evaluates this predicate. -/
def inOperatingWindow (u : GenUnit) (m : ℕ × ℕ) : Bool :=
  monthLe u.firstOpMonth m && monthLe m u.lastOpMonth

/-- A component handed to `network.add`.  For `StorageUnit`, pypsa's
defaults fill the attributes `build_network` does not pass:
`efficiency_store = 1` and `efficiency_dispatch = 1`. -/
inductive Component where
  | storageUnit (name : String) (bus : Option String) (ty : String)
      (p_nom : Option ℚ) (marginal_cost : ℚ)
      (efficiency_store : ℚ) (efficiency_dispatch : ℚ)
  | generator (name : String) (bus : Option String) (p_nom : Option ℚ)
      (carrier : String) (ty : String)
deriving DecidableEq

/-- What one iteration of the `for index, unit in generators.iterrows()`
loop produces: the component added to the network (if any), the series
appended to `all_bids` (if any) and the series appended to `all_caps`
(if any). -/
structure UnitResult where
  component : Option Component
  bids : Option (List ℚ)
  caps : Option (List ℚ)
deriving DecidableEq

/-- Embeds `str(unit["plantid"]) + "-" + str(unit["generatorid"])`. -/
def unitName (u : GenUnit) : String :=
  toString u.plantid ++ "-" ++ u.generatorid

/-- Lines 444-448: the unit's own heat rate unless it is `NaN`, in which
case the technology-level default. -/
def resolvedHeatRate (defaults : String → Option ℚ) (u : GenUnit) : Option ℚ :=
  match u.heatRate with
  | some h => some h
  | none => defaults u.technology

/-- Lines 453-462: the bid for one snapshot — fuel price at the
snapshot's month times the heat rate, and `except KeyError: bid = 0`
when the (month, fuel-type) lookup has no entry. -/
def thermalBid (fuelPrices : (ℕ × ℕ) → String → Option ℚ) (src : String) (h : ℚ)
    (s : ℕ × ℕ) : ℚ :=
  match fuelPrices s src with
  | some p => p * h
  | none => 0

/-- One iteration of the unit loop of `build_network` (lines 355-466).
A snapshot is identified with the `(year, month)` pair `build_network`
derives from it (`f"{snapshot.year}-{snapshot.month:02}"`) — bids only
depend on the month, renewables' capacity factors are passed as series
aligned with the snapshots.  A dict lookup on a missing `TECHNOLOGY_MAP`
or `default_heat_rates` key raises `KeyError`, aborting the build (in
the latter case the generator was already added; the model folds the
whole failed iteration into `.error`). -/
def processUnit (defaults : String → Option ℚ)
    (fuelPrices : (ℕ × ℕ) → String → Option ℚ)
    (solarCap windCap : List ℚ) (snapshots : List (ℕ × ℕ))
    (u : GenUnit) : Except String UnitResult :=
  if u.technology = "Batteries" ∨ u.technology = "Flywheels" then
    .ok ⟨some (.storageUnit (unitName u) u.weather_zone "Battery" u.nameplate 500 1 1),
      none, none⟩
  else if u.technology = "Solar Photovoltaic" ∨ u.technology = "Onshore Wind Turbine"
      ∨ u.technology = "Conventional Hydroelectric" then
    if strHasSub u.technology "Solar" then
      .ok ⟨some (.generator (unitName u) u.weather_zone u.nameplate "SOLAR" u.technology),
        some (snapshots.map fun _ => (-20 : ℚ)), some solarCap⟩
    else if strHasSub u.technology "Wind" then
      .ok ⟨some (.generator (unitName u) u.weather_zone u.nameplate "WIND" u.technology),
        some (snapshots.map fun _ => (-20 : ℚ)), some windCap⟩
    else
      .ok ⟨none, none, none⟩
  else if strHasSub u.technology "Nuclear" then
    .ok ⟨some (.generator (unitName u) u.weather_zone u.nameplate "NUCLEAR" u.technology),
      some (snapshots.map fun _ => (5 : ℚ)), none⟩
  else if strHasSub u.technology "Landfill Gas" then
    .ok ⟨some (.generator (unitName u) u.weather_zone u.nameplate "LANDFILL GAS" u.technology),
      some (snapshots.map fun _ => (0 : ℚ)), none⟩
  else
    match technologyMap u.technology with
    | none => .error "KeyError: TECHNOLOGY_MAP"
    | some carrier =>
      match resolvedHeatRate defaults u with
      | none => .error "KeyError: default_heat_rates"
      | some heat_rate =>
        .ok ⟨some (.generator (unitName u) u.weather_zone u.nameplate carrier u.technology),
          some (snapshots.map (thermalBid fuelPrices u.energy_source_code heat_rate)),
          none⟩

/-- The whole unit loop: iterations run in order and an uncaught
exception aborts the loop, as in Python. -/
def processUnits (defaults : String → Option ℚ)
    (fuelPrices : (ℕ × ℕ) → String → Option ℚ)
    (solarCap windCap : List ℚ) (snapshots : List (ℕ × ℕ)) :
    List GenUnit → Except String (List UnitResult)
  | [] => .ok []
  | u :: rest =>
    match processUnit defaults fuelPrices solarCap windCap snapshots u with
    | .error e => .error e
    | .ok r =>
      match processUnits defaults fuelPrices solarCap windCap snapshots rest with
      | .error e => .error e
      | .ok rs => .ok (r :: rs)

/-- The availability pypsa ends up with for a unit at snapshot `i`: the
`all_caps` series when one was built for the unit, else the `p_max_pu`
default `1`. -/
def effectiveAvailability (r : UnitResult) (i : ℕ) : ℚ :=
  match r.caps with
  | some c => c.getD i 1
  | none => 1

/-! ## Scenario validation (`src/utils.py` lines 21-56)

Python runtime values produced by `toml.load` and the runtime
representation of the type annotations.  `validate_dict` raises
`ValueError` for the explicit checks; evaluating
`field_type.__required_keys__` on a class that is not a `TypedDict`
raises `AttributeError` instead.  The `Scenario` tree
(`src/scenario.py`) contains no `NotRequired` annotation, so the
`field_type != NotRequired[str]` guard of line 38 is always true and is
dropped from the embedding. -/

inductive PyVal where
  | pynone
  | pystr (s : String)
  | pyint (n : ℤ)
  | pybool (b : Bool)
  | pyfloat (q : ℚ)
  | pydict (entries : List (String × PyVal))

inductive PyType where
  | pstr
  | pint
  | pbool
  | pfloat
  | tdict (fields : List (String × PyType))

inductive VErr where
  | valueError
  | attributeError
deriving DecidableEq

/-- Embeds `type(value) != field_type` for a non-dict `value` (Python's exact
class comparison: `bool` is not `int`, `None` matches nothing). -/
def typeMatches : PyVal → PyType → Bool
  | .pystr _, .pstr => true
  | .pyint _, .pint => true
  | .pybool _, .pbool => true
  | .pyfloat _, .pfloat => true
  | _, _ => false

mutual

/-- Embeds `validate_dict` (`src/utils.py` lines 21-47).  The required-field and
unexpected-field checks use the `required_fields` argument; the per-field
loop walks `type_annotation.__annotations__`.  The base-type fallthrough
(dict data with a non-`TypedDict` annotation) is unreachable from
`load_scenario`; builtin classes have no `__annotations__`, so it is an
`AttributeError` as well. -/
def validateDict (data : PyVal) (ty : PyType) (required : List String) :
    Except VErr Unit :=
  match data with
  | .pydict entries =>
    if required.any fun r => !((entries.map Prod.fst).contains r) then
      .error .valueError
    else if (entries.map Prod.fst).any fun k => !(required.contains k) then
      .error .valueError
    else
      match ty with
      | .tdict fields => validateFields entries fields
      | .pstr => .error .attributeError
      | .pint => .error .attributeError
      | .pbool => .error .attributeError
      | .pfloat => .error .attributeError
  | .pynone => .error .valueError
  | .pystr _ => .error .valueError
  | .pyint _ => .error .valueError
  | .pybool _ => .error .valueError
  | .pyfloat _ => .error .valueError

/-- The `for field_name, field_type in type_annotation.__annotations__`
loop.  A dict value under a non-`TypedDict` annotation evaluates
`field_type.__required_keys__` and dies with `AttributeError`. -/
def validateFields (entries : List (String × PyVal)) :
    List (String × PyType) → Except VErr Unit
  | [] => .ok ()
  | (fname, fty) :: rest =>
    match (entries.lookup fname).getD .pynone with
    | .pydict ventries =>
      match fty with
      | .tdict ffields =>
        match validateDict (.pydict ventries) (.tdict ffields) (ffields.map Prod.fst) with
        | .ok _ => validateFields entries rest
        | .error e => .error e
      | .pstr => .error .attributeError
      | .pint => .error .attributeError
      | .pbool => .error .attributeError
      | .pfloat => .error .attributeError
    | .pynone =>
      if typeMatches .pynone fty then validateFields entries rest
      else .error .valueError
    | .pystr s =>
      if typeMatches (.pystr s) fty then validateFields entries rest
      else .error .valueError
    | .pyint n =>
      if typeMatches (.pyint n) fty then validateFields entries rest
      else .error .valueError
    | .pybool b =>
      if typeMatches (.pybool b) fty then validateFields entries rest
      else .error .valueError
    | .pyfloat q =>
      if typeMatches (.pyfloat q) fty then validateFields entries rest
      else .error .valueError

end

mutual

/-- The claim's conditions for `validate_dict` raising `ValueError`,
written from the claim's words: the value is not a dict, or a required
field is absent, or a field outside the required set is present, or a
non-dict field's runtime type differs from its annotated type, the same
check applying recursively to nested dict fields. -/
def specVE (data : PyVal) (ty : PyType) (required : List String) : Bool :=
  match data with
  | .pydict entries =>
    (required.any fun r => !((entries.map Prod.fst).contains r))
      || ((entries.map Prod.fst).any fun k => !(required.contains k))
      || (match ty with
          | .tdict fields => specVEFields entries fields
          | .pstr => false
          | .pint => false
          | .pbool => false
          | .pfloat => false)
  | .pynone => true
  | .pystr _ => true
  | .pyint _ => true
  | .pybool _ => true
  | .pyfloat _ => true

/-- Field-wise disjunction of the claim's conditions. -/
def specVEFields (entries : List (String × PyVal)) :
    List (String × PyType) → Bool
  | [] => false
  | (fname, fty) :: rest =>
    (match (entries.lookup fname).getD .pynone with
     | .pydict ventries =>
       match fty with
       | .tdict ffields => specVE (.pydict ventries) (.tdict ffields) (ffields.map Prod.fst)
       | .pstr => false
       | .pint => false
       | .pbool => false
       | .pfloat => false
     | .pynone => !typeMatches .pynone fty
     | .pystr s => !typeMatches (.pystr s) fty
     | .pyint n => !typeMatches (.pyint n) fty
     | .pybool b => !typeMatches (.pybool b) fty
     | .pyfloat q => !typeMatches (.pyfloat q) fty)
      || specVEFields entries rest

end

/-- The schema `SimulationParams` (`src/scenario.py` lines 4-17). -/
def simulationParamsTy : PyType :=
  .tdict [("start_date", .pstr), ("end_date", .pstr), ("committable", .pbool),
    ("set_size", .pint), ("overlap", .pint)]

/-- The schema `IOParams` (`src/scenario.py` lines 20-27). -/
def ioParamsTy : PyType :=
  .tdict [("network_path", .pstr), ("graphs_to_file", .pbool)]

/-- The schema `Scenario` (`src/scenario.py` lines 30-37). -/
def scenarioTy : PyType :=
  .tdict [("simulation_params", simulationParamsTy), ("io_params", ioParamsTy)]

/-- The key set `Scenario.__required_keys__`. -/
def scenarioKeys : List String :=
  ["simulation_params", "io_params"]

/-- Embeds `load_scenario` (`src/utils.py` lines 50-56) after the file read:
validate, then return the loaded scenario unchanged; an uncaught
exception propagates. -/
def loadScenario (data : PyVal) : Except VErr PyVal :=
  match validateDict data scenarioTy scenarioKeys with
  | .ok _ => .ok data
  | .error e => .error e

/-! ## Concrete example inputs used by counterexamples and witnesses -/

/-- A dispatchable gas unit whose operating window is 2021-06 … 2023-01
(the spec's own test vector, §8). -/
def exThermalUnit : GenUnit :=
  { plantid := 100, generatorid := "G1", technology := "Natural Gas Steam Turbine",
    county := "Travis", nameplate := some 50, energy_source_code := "NG",
    firstOpMonth := (2021, 6), lastOpMonth := (2023, 1),
    weather_zone := some "SOUTH CENTRAL", heatRate := some 9 }

/-- Like `exThermalUnit` but with a `NaN` heat rate. -/
def exNoHeatUnit : GenUnit :=
  { plantid := 101, generatorid := "G2", technology := "Natural Gas Steam Turbine",
    county := "Travis", nameplate := some 40, energy_source_code := "NG",
    firstOpMonth := (2021, 6), lastOpMonth := (2023, 1),
    weather_zone := some "SOUTH CENTRAL", heatRate := none }

def exHydroUnit : GenUnit :=
  { plantid := 200, generatorid := "H1", technology := "Conventional Hydroelectric",
    county := "Travis", nameplate := some 30, energy_source_code := "WAT",
    firstOpMonth := (2000, 1), lastOpMonth := (2023, 1),
    weather_zone := some "SOUTH CENTRAL", heatRate := none }

def exSolarUnit : GenUnit :=
  { plantid := 201, generatorid := "S1", technology := "Solar Photovoltaic",
    county := "Pecos", nameplate := some 120, energy_source_code := "SUN",
    firstOpMonth := (2019, 4), lastOpMonth := (2023, 1),
    weather_zone := some "FAR WEST", heatRate := none }

def exBatteryUnit : GenUnit :=
  { plantid := 300, generatorid := "B1", technology := "Batteries",
    county := "Harris", nameplate := some 10, energy_source_code := "MWH",
    firstOpMonth := (2020, 1), lastOpMonth := (2023, 1),
    weather_zone := some "COAST", heatRate := none }

/-- A registry row whose county has no entry in the zone lookup below. -/
def exRawUnmapped : RawUnit :=
  { plantid := 400, generatorid := "U1", technology := "Natural Gas Steam Turbine",
    county := "Atlantis", nameplate := some 25, energy_source_code := "NG",
    firstOpMonth := (2018, 7), lastOpMonth := (2023, 1) }

/-- A fuel-price table holding exactly one entry, `(2020-12, "NG") ↦ 3`. -/
def exFuelTable : (ℕ × ℕ) → String → Option ℚ := fun s f =>
  if s = (2020, 12) ∧ f = "NG" then some 3 else none

/-- A fuel-price table with no entries at all. -/
def exEmptyTable : (ℕ × ℕ) → String → Option ℚ := fun _ _ => none

/-- An empty `default_heat_rates` table. -/
def noDefaults : String → Option ℚ := fun _ => none

/-- A `default_heat_rates` table giving gas steam turbines `8`. -/
def exDefaults : String → Option ℚ := fun t =>
  if t = "Natural Gas Steam Turbine" then some 8 else none

/-- Two raw fuel-price readings for `(2022-01, "NG")`: a zero reading and
a reading of `3`. -/
def exFuelData : List FuelReading :=
  [⟨(2022, 1), "NG", some 0⟩, ⟨(2022, 1), "NG", some 3⟩]

/-- A well-formed `simulation_params` table. -/
def goodSim : PyVal :=
  .pydict [("start_date", .pystr "2022-01-01"), ("end_date", .pystr "2022-01-31"),
    ("committable", .pybool false), ("set_size", .pyint 24), ("overlap", .pyint 4)]

/-- A scenario whose `io_params.network_path` — annotated `str` — holds a
dict. -/
def badScenario : PyVal :=
  .pydict [("simulation_params", goodSim),
    ("io_params", .pydict [("network_path", .pydict []), ("graphs_to_file", .pybool true)])]

/-- A fully well-formed scenario. -/
def goodScenario : PyVal :=
  .pydict [("simulation_params", goodSim),
    ("io_params", .pydict [("network_path", .pystr "net.nc"), ("graphs_to_file", .pybool true)])]

/-! ## Proofs for the chunker -/

lemma take_range'_eq (a : ℕ) : ∀ (n m : ℕ), (List.range' a n).take m = List.range' a (min m n) := by
  intro n
  induction n generalizing a with
  | zero => intro m; simp
  | succ n ih =>
    intro m
    cases m with
    | zero => simp
    | succ m =>
      rw [List.range'_succ, List.take_succ_cons, ih (a + 1) m, Nat.succ_min_succ,
        ← List.range'_succ]

lemma join_primary_regions (S : ℕ) :
    ∀ k : ℕ, (((List.range k).map fun i => List.range' (i * S) S).flatten) = List.range' 0 (k * S) := by
  intro k
  induction k with
  | zero => simp
  | succ k ih =>
    rw [List.range_succ, List.map_append, List.flatten_append, ih]
    simp only [List.map_cons, List.map_nil, List.flatten_cons, List.flatten_nil, List.append_nil]
    have h := List.range'_append_1 0 (k * S) S
    simpa [Nat.succ_mul, Nat.add_comm] using h

lemma primary_take (N S O i : ℕ) (hS : 0 < S) (hi : i < N / S) :
    (List.range' (i * S) (min (S + O) (N - i * S))).take S = List.range' (i * S) S := by
  have h1 : (i + 1) * S ≤ N / S * S := Nat.mul_le_mul_right S hi
  have h2 : (i + 1) * S ≤ N := h1.trans (Nat.div_mul_le_self N S)
  have h3 : i * S + S ≤ N := by rw [Nat.succ_mul] at h2; exact h2
  rw [take_range'_eq]
  congr 1
  omega

lemma stitched_of_pos (N S O : ℕ) (hS : S ≠ 0) : stitchedHorizon N S O = List.range N := by
  unfold stitchedHorizon horizonChunks
  rw [if_neg hS, if_neg hS, List.map_append, List.flatten_append, List.map_map]
  have hmap : (List.range (N / S)).map
        (List.take S ∘ fun i => List.range' (i * S) (min (S + O) (N - i * S)))
      = (List.range (N / S)).map fun i => List.range' (i * S) S := by
    apply List.map_congr_left
    intro i hi
    simp only [Function.comp_apply]
    exact primary_take N S O i (Nat.pos_of_ne_zero hS) (List.mem_range.mp hi)
  rw [hmap, join_primary_regions]
  have hdm : S * (N / S) + N % S = N := Nat.div_add_mod N S
  by_cases h0 : N % S = 0
  · rw [if_pos h0]
    simp only [List.map_nil, List.flatten_nil, List.append_nil]
    rw [List.range_eq_range']
    congr 1
    rw [Nat.mul_comm]
    omega
  · rw [if_neg h0]
    simp only [List.map_cons, List.map_nil, List.flatten_cons, List.flatten_nil,
      List.append_nil]
    rw [take_range'_eq]
    have hlt : N % S < S := Nat.mod_lt _ (Nat.pos_of_ne_zero hS)
    have hmin : min S (N % S) = N % S := by omega
    rw [hmin]
    have happ := List.range'_append_1 0 (N / S * S) (N % S)
    rw [Nat.zero_add] at happ
    rw [happ, List.range_eq_range']
    congr 1
    have hc : N / S * S = S * (N / S) := Nat.mul_comm _ _
    omega

lemma stitched_of_zero (N O : ℕ) : stitchedHorizon N 0 O = List.range N := by
  unfold stitchedHorizon horizonChunks
  simp

lemma chunks_73_24_len (O : ℕ) : (horizonChunks 73 24 O).length = 4 := by
  have h : (73 : ℕ) / 24 = 3 := by norm_num
  have h2 : (73 : ℕ) % 24 = 1 := by norm_num
  simp [horizonChunks, h, h2]

lemma chunks_73_24_sizes (O : ℕ) :
    (horizonChunks 73 24 O).map (fun c => (c.take 24).length) = [24, 24, 24, 1] := by
  have h : (73 : ℕ) / 24 = 3 := by norm_num
  have h2 : (73 : ℕ) % 24 = 1 := by norm_num
  have h3 : List.range 3 = [0, 1, 2] := by decide
  simp only [horizonChunks, h, h2, h3, if_neg (by norm_num : (24 : ℕ) ≠ 0),
    if_neg (by norm_num : (1 : ℕ) ≠ 0), List.map_cons, List.map_nil, List.map_append,
    List.length_take, List.length_range']
  norm_num

/-- C4: for every horizon length `N`, chunk size `S > 0` and overlap `O`,
the chunks are the consecutive windows `[i*S, i*S + S + O)` plus a final
remainder chunk, each chunk contributes exactly its first `S` snapshots to
the stitched output, and that output is exactly the original horizon with
no duplicate and no gap; with `S = 0` the whole horizon is one single
chunk; for `S = 24`, `N = 73` there are 3 primary chunks of retained size
24 plus one remainder chunk of size 1, for any `O`. -/
theorem chunker_coverage (N S O : ℕ) :
    stitchedHorizon N S O = List.range N ∧
    horizonChunks N 0 O = [List.range N] ∧
    (horizonChunks 73 24 O).length = 4 ∧
    (horizonChunks 73 24 O).map (fun c => (c.take 24).length) = [24, 24, 24, 1] := by
  refine ⟨?_, by simp [horizonChunks], chunks_73_24_len O, chunks_73_24_sizes O⟩
  by_cases hS : S = 0
  · subst hS; exact stitched_of_zero N O
  · exact stitched_of_pos N S O hS

/-! ## Proofs about the interpolation -/

lemma prevValid_eq_none (v : List (Option ℚ)) :
    ∀ i, (∀ j, j < i → v.getD j none = none) → prevValid v i = none := by
  intro i
  induction i with
  | zero => intro _; rfl
  | succ i ih =>
    intro h
    unfold prevValid
    rw [h i (Nat.lt_succ_self i)]
    exact ih fun j hj => h j (Nat.lt_succ_of_lt hj)

lemma interpolateSeries_getD (v : List (Option ℚ)) (i : ℕ) (hi : i < v.length) :
    (interpolateSeries v).getD i none = interpAt v i := by
  unfold interpolateSeries
  rw [List.getD_eq_getElem?_getD, List.getElem?_map, List.getElem?_range hi]
  rfl

/-- C6 (amended): pandas' default linear interpolation fills forward only —
a position with no valid value at or before it stays missing (nothing is
fabricated before the first valid data point), while a missing position
after the last valid data point is filled by carrying that last valid
value forward. -/
theorem interpolate_forward_fill (v : List (Option ℚ)) (i : ℕ) :
    ((∀ j, j ≤ i → v.getD j none = none) → (interpolateSeries v).getD i none = none) ∧
    (∀ j x, i < v.length → v.getD i none = none → prevValid v i = some (j, x) →
      nextValid v i = none → (interpolateSeries v).getD i none = some x) := by
  constructor
  · intro h
    by_cases hi : i < v.length
    · rw [interpolateSeries_getD v i hi]
      unfold interpAt
      rw [h i le_rfl, prevValid_eq_none v i fun j hj => h j (Nat.le_of_lt hj)]
    · unfold interpolateSeries
      rw [List.getD_eq_getElem?_getD, List.getElem?_eq_none]
      · rfl
      · simpa using Nat.le_of_not_lt hi
  · intro j x hi hmiss hprev hnext
    rw [interpolateSeries_getD v i hi]
    unfold interpAt
    rw [hmiss, hprev, hnext]

/-- C6 witness for `interpolate_forward_fill`: in `[none, some 2]` the
leading gap stays missing, and in `[some 1, none]` the trailing gap is
filled with the last valid value `1`. -/
theorem interpolate_forward_fill_witness :
    (interpolateSeries [none, some 2]).getD 0 none = none ∧
    (interpolateSeries [some 1, none]).getD 1 none = some 1 := by
  constructor
  · exact (interpolate_forward_fill [none, some 2] 0).1 fun j hj => by
      interval_cases j
      rfl
  · exact (interpolate_forward_fill [some 1, none] 1).2 0 1 (by norm_num) rfl rfl rfl

/-- C6 counterexample: interpolating `[1, NaN, 3, NaN]` yields
`[1, 2, 3, 3]` — position 3 lies after the last valid data point
(position 2), yet a value is fabricated for it (the last valid value is
carried forward), contradicting the claim that no value is ever
fabricated after the last observed valid data point. -/
theorem interpolate_extrapolates_after_last :
    interpolateSeries [some 1, none, some 3, none] = [some 1, some 2, some 3, some 3] ∧
    (interpolateSeries [some 1, none, some 3, none]).getD 3 none ≠ none := by
  have h : interpolateSeries [some 1, none, some 3, none] =
      [some 1, some 2, some 3, some 3] := by
    norm_num [interpolateSeries, interpAt, prevValid, nextValid, nextValidAux,
      List.range_succ]
  exact ⟨h, by rw [h]; simp⟩

/-! ## Proofs about the fuel-cost table -/

lemma mem_fuelReadingsFor {data : List FuelReading} {m : ℕ × ℕ} {f : String} {x : ℚ}
    (hx : x ∈ fuelReadingsFor data m f) : ∃ r ∈ data, r.cost = some x ∧ x ≠ 0 := by
  unfold fuelReadingsFor keptReadings at hx
  rcases List.mem_filterMap.mp hx with ⟨r, hr, hc⟩
  rcases List.mem_filter.mp hr with ⟨hr2, -⟩
  rcases List.mem_filter.mp hr2 with ⟨hr3, hq⟩
  refine ⟨r, hr3, hc, ?_⟩
  rw [hc] at hq
  simpa using hq

/-- C7: a fuel-price reading whose value is zero (or invalid, `none`)
is dropped from the table's inputs, and — given the physical fact that
readings are nonnegative — every entry of the resulting
`(month, fuel-type)` table is strictly positive: no zero-valued entry can
originate from a zero reading, because zero readings never reach the
mean. -/
theorem fuel_table_no_zero_entries (data : List FuelReading) (m : ℕ × ℕ) (f : String)
    (hpos : ∀ r ∈ data, ∀ c, r.cost = some c → 0 ≤ c) :
    (∀ r ∈ data, r.cost = some 0 → r ∉ keptReadings data) ∧
    (∀ v, buildFuelTable data m f = some v → 0 < v) := by
  constructor
  · intro r _ h0 hmem
    unfold keptReadings at hmem
    rcases List.mem_filter.mp hmem with ⟨-, hp⟩
    rw [h0] at hp
    simp at hp
  · intro v hv
    unfold buildFuelTable at hv
    by_cases hemp : (fuelReadingsFor data m f).isEmpty
    · simp [hemp] at hv
    · rw [if_neg hemp] at hv
      have hne : fuelReadingsFor data m f ≠ [] := by
        simpa [List.isEmpty_iff] using hemp
      have hall : ∀ x ∈ fuelReadingsFor data m f, 0 < x := by
        intro x hx
        rcases mem_fuelReadingsFor hx with ⟨r, hr, hc, hx0⟩
        exact lt_of_le_of_ne (hpos r hr x hc) (Ne.symm hx0)
      have hsum : 0 < (fuelReadingsFor data m f).sum := List.sum_pos _ hall hne
      have hlen : 0 < ((fuelReadingsFor data m f).length : ℚ) := by
        exact_mod_cast List.length_pos.mpr hne
      rw [← Option.some_inj.mp hv]
      exact div_pos hsum hlen

/-- C7 witness for `fuel_table_no_zero_entries`: with one zero reading and
one reading of `3` for `(2022-01, "NG")`, the zero reading is dropped and
the table entry (so the value `3`) is positive. -/
theorem fuel_table_no_zero_entries_witness :
    (⟨(2022, 1), "NG", some 0⟩ : FuelReading) ∉ keptReadings exFuelData ∧ (0 : ℚ) < 3 := by
  have h := fuel_table_no_zero_entries exFuelData (2022, 1) "NG" (by
    intro r hr c hc
    simp only [exFuelData, List.mem_cons, List.not_mem_nil, or_false] at hr
    rcases hr with rfl | rfl
    · cases hc; norm_num
    · cases hc; norm_num)
  refine ⟨h.1 _ (by simp [exFuelData]) rfl, h.2 3 ?_⟩
  norm_num [buildFuelTable, fuelReadingsFor, keptReadings, List.filterMap_cons, exFuelData]

/-! ## Proofs about `build_network`'s unit loop -/

lemma processUnit_thermal (defaults : String → Option ℚ)
    (fp : (ℕ × ℕ) → String → Option ℚ) (sc wc : List ℚ) (snaps : List (ℕ × ℕ))
    (u : GenUnit)
    (htech : ¬(u.technology = "Batteries" ∨ u.technology = "Flywheels"))
    (hren : ¬(u.technology = "Solar Photovoltaic" ∨ u.technology = "Onshore Wind Turbine"
      ∨ u.technology = "Conventional Hydroelectric"))
    (hnuc : strHasSub u.technology "Nuclear" = false)
    (hlf : strHasSub u.technology "Landfill Gas" = false)
    (carrier : String) (hcar : technologyMap u.technology = some carrier)
    (h : ℚ) (hh : resolvedHeatRate defaults u = some h) :
    processUnit defaults fp sc wc snaps u =
      .ok ⟨some (.generator (unitName u) u.weather_zone u.nameplate carrier u.technology),
        some (snaps.map (thermalBid fp u.energy_source_code h)), none⟩ := by
  unfold processUnit
  rw [if_neg htech, if_neg hren, if_neg (by simp [hnuc]), if_neg (by simp [hlf]),
    hcar, hh]

/-- C1 (amended): for a dispatchable thermal unit, when the fuel-price
table has no entry for a snapshot's (month, fuel-type) pair, the
constructed bid for that snapshot is `0` — the `except KeyError` handler
silently defaults to zero; no technology-level default-bid constant is
substituted and no fallback audit log exists in `build_network`. -/
theorem missing_fuel_price_bid_zero (defaults : String → Option ℚ)
    (fp : (ℕ × ℕ) → String → Option ℚ) (sc wc : List ℚ) (snaps : List (ℕ × ℕ))
    (u : GenUnit)
    (htech : ¬(u.technology = "Batteries" ∨ u.technology = "Flywheels"))
    (hren : ¬(u.technology = "Solar Photovoltaic" ∨ u.technology = "Onshore Wind Turbine"
      ∨ u.technology = "Conventional Hydroelectric"))
    (hnuc : strHasSub u.technology "Nuclear" = false)
    (hlf : strHasSub u.technology "Landfill Gas" = false)
    (carrier : String) (hcar : technologyMap u.technology = some carrier)
    (h : ℚ) (hh : resolvedHeatRate defaults u = some h)
    (i : ℕ) (s : ℕ × ℕ) (hs : snaps[i]? = some s)
    (hmiss : fp s u.energy_source_code = none) :
    processUnit defaults fp sc wc snaps u =
      .ok ⟨some (.generator (unitName u) u.weather_zone u.nameplate carrier u.technology),
        some (snaps.map (thermalBid fp u.energy_source_code h)), none⟩ ∧
    (snaps.map (thermalBid fp u.energy_source_code h))[i]? = some 0 := by
  refine ⟨processUnit_thermal defaults fp sc wc snaps u htech hren hnuc hlf carrier hcar
    h hh, ?_⟩
  rw [List.getElem?_map, hs]
  simp [thermalBid, hmiss]

/-- C1 witness for `missing_fuel_price_bid_zero`: a gas unit bidding for
2022-03 against an empty fuel-price table. -/
theorem missing_fuel_price_bid_zero_witness :
    processUnit noDefaults exEmptyTable [] [] [(2022, 3)] exThermalUnit =
      .ok ⟨some (.generator (unitName exThermalUnit) exThermalUnit.weather_zone
        exThermalUnit.nameplate "gas" exThermalUnit.technology),
        some ([(2022, 3)].map (thermalBid exEmptyTable exThermalUnit.energy_source_code 9)),
        none⟩ ∧
    ([(2022, 3)].map (thermalBid exEmptyTable exThermalUnit.energy_source_code 9))[0]? =
      some 0 :=
  missing_fuel_price_bid_zero noDefaults exEmptyTable [] [] [(2022, 3)] exThermalUnit
    (by decide) (by decide) (by decide) (by decide) "gas" rfl 9 rfl 0 (2022, 3) rfl rfl

/-- C1 counterexample: the spec's own test vector — a gas unit bidding for
a month with no `(month, "NG")` fuel-price entry.  The constructed bid is
`0` (the `except KeyError: bid = 0` branch of `build_network`), not a
nonzero technology-level default-bid constant, and no audit-log record is
produced anywhere. -/
theorem missing_fuel_price_bid_zero_cex :
    processUnit noDefaults exEmptyTable [] [] [(2022, 3)] exThermalUnit =
      .ok ⟨some (.generator "100-G1" (some "SOUTH CENTRAL") (some 50) "gas"
        "Natural Gas Steam Turbine"), some [0], none⟩ := by
  norm_num +decide [processUnit, exThermalUnit, exEmptyTable, noDefaults, resolvedHeatRate,
    thermalBid, unitName, technologyMap, strHasSub, hasSubList, isPrefixOfB]

/-- C2 (amended): `build_network` never consults the operating window —
for a dispatchable thermal unit it constructs no availability series at
all (the effective availability is the pypsa `p_max_pu` default `1` for
every snapshot, inside or outside the window) and the bid follows the
fuel-cost formula for every snapshot, also for months outside the
window. -/
theorem thermal_window_ignored (defaults : String → Option ℚ)
    (fp : (ℕ × ℕ) → String → Option ℚ) (sc wc : List ℚ) (snaps : List (ℕ × ℕ))
    (u : GenUnit)
    (htech : ¬(u.technology = "Batteries" ∨ u.technology = "Flywheels"))
    (hren : ¬(u.technology = "Solar Photovoltaic" ∨ u.technology = "Onshore Wind Turbine"
      ∨ u.technology = "Conventional Hydroelectric"))
    (hnuc : strHasSub u.technology "Nuclear" = false)
    (hlf : strHasSub u.technology "Landfill Gas" = false)
    (carrier : String) (hcar : technologyMap u.technology = some carrier)
    (h : ℚ) (hh : resolvedHeatRate defaults u = some h) :
    processUnit defaults fp sc wc snaps u =
      .ok ⟨some (.generator (unitName u) u.weather_zone u.nameplate carrier u.technology),
        some (snaps.map (thermalBid fp u.energy_source_code h)), none⟩ ∧
    (∀ i, effectiveAvailability
      ⟨some (.generator (unitName u) u.weather_zone u.nameplate carrier u.technology),
        some (snaps.map (thermalBid fp u.energy_source_code h)), none⟩ i = 1) ∧
    (∀ (i : ℕ) (s : ℕ × ℕ), snaps[i]? = some s → inOperatingWindow u s = false →
      (snaps.map (thermalBid fp u.energy_source_code h))[i]? =
        some (thermalBid fp u.energy_source_code h s)) := by
  refine ⟨processUnit_thermal defaults fp sc wc snaps u htech hren hnuc hlf carrier hcar
    h hh, fun i => rfl, fun i s hs _ => ?_⟩
  rw [List.getElem?_map, hs]
  rfl

/-- C2 witness for `thermal_window_ignored`: the month 2020-12 lies
before `exThermalUnit`'s first operating month 2021-06, yet availability
is `1` and the bid is the normal formula value. -/
theorem thermal_window_ignored_witness :
    effectiveAvailability
      ⟨some (.generator (unitName exThermalUnit) exThermalUnit.weather_zone
        exThermalUnit.nameplate "gas" exThermalUnit.technology),
        some ([(2020, 12)].map (thermalBid exFuelTable exThermalUnit.energy_source_code 9)),
        none⟩ 0 = 1 ∧
    ([(2020, 12)].map (thermalBid exFuelTable exThermalUnit.energy_source_code 9))[0]? =
      some (thermalBid exFuelTable exThermalUnit.energy_source_code 9 (2020, 12)) := by
  have h := thermal_window_ignored noDefaults exFuelTable [] [] [(2020, 12)] exThermalUnit
    (by decide) (by decide) (by decide) (by decide) "gas" rfl 9 rfl
  exact ⟨h.2.1 0, h.2.2 0 (2020, 12) rfl (by decide)⟩

/-- C2 counterexample: `exThermalUnit` operates 2021-06 … 2023-01; the
snapshot month 2020-12 lies outside that window and a fuel price is
available for it, yet the constructed availability is not 0 — no
availability series is built (pypsa default `1`) and the bid is the
normal cost formula value `27`, so the unit is dispatchable before it was
built. -/
theorem window_not_enforced_cex :
    inOperatingWindow exThermalUnit (2020, 12) = false ∧
    processUnit noDefaults exFuelTable [] [] [(2020, 12)] exThermalUnit =
      .ok ⟨some (.generator "100-G1" (some "SOUTH CENTRAL") (some 50) "gas"
        "Natural Gas Steam Turbine"), some [27], none⟩ ∧
    effectiveAvailability ⟨some (.generator "100-G1" (some "SOUTH CENTRAL") (some 50) "gas"
      "Natural Gas Steam Turbine"), some [27], none⟩ 0 = 1 ∧
    (1 : ℚ) ≠ 0 := by
  refine ⟨by decide, ?_, rfl, by norm_num⟩
  norm_num +decide [processUnit, exThermalUnit, exFuelTable, noDefaults, resolvedHeatRate,
    thermalBid, unitName, technologyMap, strHasSub, hasSubList, isPrefixOfB]

/-- C3 (amended): a storage unit (Batteries or Flywheels) gets no
bid/availability series and a fixed marginal cost of 500; its charge and
discharge efficiencies are not set by `build_network` at all, so both
stay at the pypsa default `1` (round-trip efficiency `1`) — there is no
square-root split of a round-trip efficiency. -/
theorem storage_unit_defaults (defaults : String → Option ℚ)
    (fp : (ℕ × ℕ) → String → Option ℚ) (sc wc : List ℚ) (snaps : List (ℕ × ℕ))
    (u : GenUnit) (hst : u.technology = "Batteries" ∨ u.technology = "Flywheels") :
    processUnit defaults fp sc wc snaps u =
      .ok ⟨some (.storageUnit (unitName u) u.weather_zone "Battery" u.nameplate 500 1 1),
        none, none⟩ := by
  unfold processUnit
  rw [if_pos hst]

/-- C3 witness for `storage_unit_defaults`. -/
theorem storage_unit_defaults_witness :
    processUnit noDefaults exEmptyTable [] [] [(2022, 3)] exBatteryUnit =
      .ok ⟨some (.storageUnit (unitName exBatteryUnit) exBatteryUnit.weather_zone
        "Battery" exBatteryUnit.nameplate 500 1 1), none, none⟩ :=
  storage_unit_defaults noDefaults exEmptyTable [] [] [(2022, 3)] exBatteryUnit
    (Or.inl rfl)

/-- C3 counterexample: `exBatteryUnit` is added with charge efficiency 1
and discharge efficiency 1 (the pypsa defaults — `build_network` passes
no efficiency at all), so for the spec's round-trip-efficiency-0.8 test
the legs would have to multiply to `4/5`, but they multiply to `1`. -/
theorem storage_no_sqrt_split_cex :
    processUnit noDefaults exEmptyTable [] [] [(2022, 3)] exBatteryUnit =
      .ok ⟨some (.storageUnit "300-B1" (some "COAST") "Battery" (some 10) 500 1 1),
        none, none⟩ ∧
    ¬((1 : ℚ) * 1 = 4 / 5) := by
  refine ⟨rfl, by norm_num⟩

/-! ## Proofs about `build_generators` -/

/-- C5 (amended): the county→zone join of `build_generators` is a left
join — a unit whose county has no entry in the lookup table is not
dropped and does not abort the build: it is carried forward with a
missing (`NaN`) zone. -/
theorem unmapped_county_carried (countyToZone : List (String × String))
    (plantHeatRates : List (ℕ × ℚ)) (units : List RawUnit) (i : ℕ) (u : RawUnit)
    (hu : units[i]? = some u) (hmiss : countyToZone.lookup u.county = none) :
    (buildGenerators countyToZone plantHeatRates units)[i]? =
      some { toRawUnit := u, weather_zone := none,
             heatRate := plantHeatRates.lookup u.plantid } := by
  unfold buildGenerators
  rw [List.getElem?_map, hu]
  simp [hmiss]

/-- C5 witness for `unmapped_county_carried`: county "Atlantis" has no
entry in a one-row zone table; the unit comes out with `weather_zone =
none`. -/
theorem unmapped_county_carried_witness :
    (buildGenerators [("Harris", "COAST")] [] [exRawUnmapped])[0]? =
      some { toRawUnit := exRawUnmapped, weather_zone := none, heatRate := none } :=
  unmapped_county_carried [("Harris", "COAST")] [] [exRawUnmapped] 0 exRawUnmapped
    rfl rfl

/-- C5 counterexample: `build_generators` with a zone table lacking the
unit's county returns normally (no configuration error is raised at the
join) and the unit is carried forward with no zone — contradicting the
claim that the build fails and that a unit is never carried forward
without a zone. -/
theorem unmapped_county_cex :
    buildGenerators [("Harris", "COAST")] [] [exRawUnmapped] =
      [{ toRawUnit := exRawUnmapped, weather_zone := none, heatRate := none }] := rfl

/-- C8 (amended): solar and wind units get the fixed bid `-20` and the
fleet-wide capacity-factor series of their class, but a
conventional-hydroelectric unit — though listed in the
variable-renewable tuple — matches neither the `"Solar"` nor the
`"Wind"` substring branch and falls through: it is not added to the
network and gets no bid and no availability at all. -/
theorem renewable_class_bids (defaults : String → Option ℚ)
    (fp : (ℕ × ℕ) → String → Option ℚ) (sc wc : List ℚ) (snaps : List (ℕ × ℕ))
    (u : GenUnit) :
    (u.technology = "Solar Photovoltaic" →
      processUnit defaults fp sc wc snaps u =
        .ok ⟨some (.generator (unitName u) u.weather_zone u.nameplate "SOLAR" u.technology),
          some (snaps.map fun _ => (-20 : ℚ)), some sc⟩) ∧
    (u.technology = "Onshore Wind Turbine" →
      processUnit defaults fp sc wc snaps u =
        .ok ⟨some (.generator (unitName u) u.weather_zone u.nameplate "WIND" u.technology),
          some (snaps.map fun _ => (-20 : ℚ)), some wc⟩) ∧
    (u.technology = "Conventional Hydroelectric" →
      processUnit defaults fp sc wc snaps u = .ok ⟨none, none, none⟩) := by
  refine ⟨fun ht => ?_, fun ht => ?_, fun ht => ?_⟩ <;>
    · unfold processUnit
      rw [ht]
      norm_num +decide

/-- C8 witness for `renewable_class_bids`: a solar unit gets bid `-20`
and the solar fleet series; a hydro unit gets nothing. -/
theorem renewable_class_bids_witness :
    processUnit noDefaults exEmptyTable [(1 : ℚ) / 2] [] [(2022, 3)] exSolarUnit =
      .ok ⟨some (.generator (unitName exSolarUnit) exSolarUnit.weather_zone
        exSolarUnit.nameplate "SOLAR" exSolarUnit.technology),
        some ([(2022, 3)].map fun _ => (-20 : ℚ)), some [(1 : ℚ) / 2]⟩ ∧
    processUnit noDefaults exEmptyTable [(1 : ℚ) / 2] [] [(2022, 3)] exHydroUnit =
      .ok ⟨none, none, none⟩ :=
  ⟨(renewable_class_bids noDefaults exEmptyTable [(1 : ℚ) / 2] [] [(2022, 3)]
      exSolarUnit).1 rfl,
   (renewable_class_bids noDefaults exEmptyTable [(1 : ℚ) / 2] [] [(2022, 3)]
      exHydroUnit).2.2 rfl⟩

/-- C8 counterexample: the hydro unit `exHydroUnit` (technology
"Conventional Hydroelectric", a variable-renewable class per the claim)
produces no component, no bid series and no availability series — it is
silently skipped, not given a fixed low/negative marginal cost and a
fleet-wide capacity factor. -/
theorem hydro_skipped_cex :
    processUnit noDefaults exEmptyTable [] [] [(2022, 3)] exHydroUnit =
      .ok ⟨none, none, none⟩ := rfl

lemma processUnits_append (defaults : String → Option ℚ)
    (fp : (ℕ × ℕ) → String → Option ℚ) (sc wc : List ℚ) (snaps : List (ℕ × ℕ))
    (l1 l2 : List GenUnit) :
    processUnits defaults fp sc wc snaps (l1 ++ l2) =
      match processUnits defaults fp sc wc snaps l1 with
      | .error e => .error e
      | .ok r1 =>
        match processUnits defaults fp sc wc snaps l2 with
        | .error e => .error e
        | .ok r2 => .ok (r1 ++ r2) := by
  induction l1 with
  | nil =>
    simp only [List.nil_append, processUnits]
    cases processUnits defaults fp sc wc snaps l2 <;> simp
  | cons u rest ih =>
    simp only [List.cons_append, processUnits]
    cases hpu : processUnit defaults fp sc wc snaps u with
    | error e => rfl
    | ok r =>
      simp only [List.append_eq]
      rw [ih]
      cases processUnits defaults fp sc wc snaps rest with
      | error e => rfl
      | ok r1 =>
        cases processUnits defaults fp sc wc snaps l2 with
        | error e => rfl
        | ok r2 => rfl

/-- C9: a dispatchable thermal unit whose heat rate is missing
(NaN) has the technology-level average heat rate substituted at
bid-construction time (`resolvedHeatRate`), its bid series is built from
the substituted value, and because the unit loop processes units
elementwise, what happens for this unit never changes what is built for
the units before or after it. -/
theorem heatrate_substitution (defaults : String → Option ℚ)
    (fp : (ℕ × ℕ) → String → Option ℚ) (sc wc : List ℚ) (snaps : List (ℕ × ℕ))
    (u : GenUnit) (hnan : u.heatRate = none) (d : ℚ)
    (hdef : defaults u.technology = some d)
    (htech : ¬(u.technology = "Batteries" ∨ u.technology = "Flywheels"))
    (hren : ¬(u.technology = "Solar Photovoltaic" ∨ u.technology = "Onshore Wind Turbine"
      ∨ u.technology = "Conventional Hydroelectric"))
    (hnuc : strHasSub u.technology "Nuclear" = false)
    (hlf : strHasSub u.technology "Landfill Gas" = false)
    (carrier : String) (hcar : technologyMap u.technology = some carrier) :
    resolvedHeatRate defaults u = some d ∧
    processUnit defaults fp sc wc snaps u =
      .ok ⟨some (.generator (unitName u) u.weather_zone u.nameplate carrier u.technology),
        some (snaps.map (thermalBid fp u.energy_source_code d)), none⟩ ∧
    ∀ pre post : List GenUnit,
      processUnits defaults fp sc wc snaps (pre ++ u :: post) =
        match processUnits defaults fp sc wc snaps pre with
        | .error e => .error e
        | .ok rp =>
          match processUnit defaults fp sc wc snaps u with
          | .error e => .error e
          | .ok r =>
            match processUnits defaults fp sc wc snaps post with
            | .error e => .error e
            | .ok rt => .ok (rp ++ r :: rt) := by
  have hres : resolvedHeatRate defaults u = some d := by
    unfold resolvedHeatRate
    rw [hnan]
    exact hdef
  refine ⟨hres, processUnit_thermal defaults fp sc wc snaps u htech hren hnuc hlf
    carrier hcar d hres, fun pre post => ?_⟩
  rw [processUnits_append]
  cases processUnits defaults fp sc wc snaps pre with
  | error e => rfl
  | ok rp =>
    simp only [processUnits]
    cases processUnit defaults fp sc wc snaps u with
    | error e => rfl
    | ok r =>
      cases processUnits defaults fp sc wc snaps post with
      | error e => rfl
      | ok rt => rfl

/-- C9 witness for `heatrate_substitution`: `exNoHeatUnit` has a NaN heat
rate; with the technology average `8` the bid for 2020-12 (fuel price 3)
is built from the substituted value. -/
theorem heatrate_substitution_witness :
    resolvedHeatRate exDefaults exNoHeatUnit = some 8 ∧
    processUnit exDefaults exFuelTable [] [] [(2020, 12)] exNoHeatUnit =
      .ok ⟨some (.generator (unitName exNoHeatUnit) exNoHeatUnit.weather_zone
        exNoHeatUnit.nameplate "gas" exNoHeatUnit.technology),
        some ([(2020, 12)].map (thermalBid exFuelTable exNoHeatUnit.energy_source_code 8)),
        none⟩ := by
  have h := heatrate_substitution exDefaults exFuelTable [] [] [(2020, 12)] exNoHeatUnit
    rfl 8 rfl (by decide) (by decide) (by decide) (by decide) "gas" rfl
  exact ⟨h.1, h.2.1⟩

/-! ## Proofs about scenario validation -/

lemma vf_cons_sound (entries : List (String × PyVal)) (fname : String) (fty : PyType)
    (rest : List (String × PyType))
    (ihd : ∀ ffields ventries, fty = .tdict ffields →
      (entries.lookup fname).getD .pynone = .pydict ventries →
      (validateDict (.pydict ventries) (.tdict ffields) (ffields.map Prod.fst) =
          .error .valueError →
        specVE (.pydict ventries) (.tdict ffields) (ffields.map Prod.fst) = true) ∧
      (validateDict (.pydict ventries) (.tdict ffields) (ffields.map Prod.fst) = .ok () →
        specVE (.pydict ventries) (.tdict ffields) (ffields.map Prod.fst) = false))
    (ihr : (validateFields entries rest = .error .valueError →
        specVEFields entries rest = true) ∧
      (validateFields entries rest = .ok () → specVEFields entries rest = false)) :
    (validateFields entries ((fname, fty) :: rest) = .error .valueError →
      specVEFields entries ((fname, fty) :: rest) = true) ∧
    (validateFields entries ((fname, fty) :: rest) = .ok () →
      specVEFields entries ((fname, fty) :: rest) = false) := by
  rw [validateFields, specVEFields]
  cases hv : (entries.lookup fname).getD .pynone with
  | pydict ventries =>
    dsimp only
    cases fty with
    | tdict ffields =>
      dsimp only
      cases hvd : validateDict (.pydict ventries) (.tdict ffields)
          (ffields.map Prod.fst) with
      | ok u =>
        cases u
        have hspec := (ihd ffields ventries rfl hv).2 hvd
        rw [hspec]
        simp only [Bool.false_or]
        exact ihr
      | error e =>
        cases e with
        | valueError =>
          have hspec := (ihd ffields ventries rfl hv).1 hvd
          rw [hspec]
          exact ⟨fun _ => rfl, fun hok => by simp at hok⟩
        | attributeError =>
          exact ⟨fun hc => by simp at hc, fun hok => by simp at hok⟩
    | pstr => exact ⟨fun hc => by simp at hc, fun hok => by simp at hok⟩
    | pint => exact ⟨fun hc => by simp at hc, fun hok => by simp at hok⟩
    | pbool => exact ⟨fun hc => by simp at hc, fun hok => by simp at hok⟩
    | pfloat => exact ⟨fun hc => by simp at hc, fun hok => by simp at hok⟩
  | pynone =>
    dsimp only
    by_cases ht : typeMatches .pynone fty = true
    · rw [if_pos ht, ht]
      simp only [Bool.not_true, Bool.false_or]
      exact ihr
    · rw [Bool.not_eq_true] at ht
      rw [if_neg (by rw [ht]; exact Bool.false_ne_true), ht]
      exact ⟨fun _ => rfl, fun hok => by simp at hok⟩
  | pystr s =>
    dsimp only
    by_cases ht : typeMatches (.pystr s) fty = true
    · rw [if_pos ht, ht]
      simp only [Bool.not_true, Bool.false_or]
      exact ihr
    · rw [Bool.not_eq_true] at ht
      rw [if_neg (by rw [ht]; exact Bool.false_ne_true), ht]
      exact ⟨fun _ => rfl, fun hok => by simp at hok⟩
  | pyint n =>
    dsimp only
    by_cases ht : typeMatches (.pyint n) fty = true
    · rw [if_pos ht, ht]
      simp only [Bool.not_true, Bool.false_or]
      exact ihr
    · rw [Bool.not_eq_true] at ht
      rw [if_neg (by rw [ht]; exact Bool.false_ne_true), ht]
      exact ⟨fun _ => rfl, fun hok => by simp at hok⟩
  | pybool b =>
    dsimp only
    by_cases ht : typeMatches (.pybool b) fty = true
    · rw [if_pos ht, ht]
      simp only [Bool.not_true, Bool.false_or]
      exact ihr
    · rw [Bool.not_eq_true] at ht
      rw [if_neg (by rw [ht]; exact Bool.false_ne_true), ht]
      exact ⟨fun _ => rfl, fun hok => by simp at hok⟩
  | pyfloat q =>
    dsimp only
    by_cases ht : typeMatches (.pyfloat q) fty = true
    · rw [if_pos ht, ht]
      simp only [Bool.not_true, Bool.false_or]
      exact ihr
    · rw [Bool.not_eq_true] at ht
      rw [if_neg (by rw [ht]; exact Bool.false_ne_true), ht]
      exact ⟨fun _ => rfl, fun hok => by simp at hok⟩

lemma vd_dict_sound (entries : List (String × PyVal)) (ty : PyType) (req : List String)
    (iht : ∀ fields, ty = .tdict fields →
      (validateFields entries fields = .error .valueError →
        specVEFields entries fields = true) ∧
      (validateFields entries fields = .ok () → specVEFields entries fields = false)) :
    (validateDict (.pydict entries) ty req = .error .valueError →
      specVE (.pydict entries) ty req = true) ∧
    (validateDict (.pydict entries) ty req = .ok () →
      specVE (.pydict entries) ty req = false) := by
  rw [validateDict.eq_def, specVE.eq_def]
  dsimp only
  by_cases h1 : (req.any fun r => !((entries.map Prod.fst).contains r)) = true
  · rw [if_pos h1, h1]
    exact ⟨fun _ => rfl, fun hok => by simp at hok⟩
  · rw [Bool.not_eq_true] at h1
    rw [if_neg (by rw [h1]; exact Bool.false_ne_true), h1]
    simp only [Bool.false_or]
    by_cases h2 : ((entries.map Prod.fst).any fun k => !(req.contains k)) = true
    · rw [if_pos h2, h2]
      exact ⟨fun _ => rfl, fun hok => by simp at hok⟩
    · rw [Bool.not_eq_true] at h2
      rw [if_neg (by rw [h2]; exact Bool.false_ne_true), h2]
      simp only [Bool.false_or]
      cases ty with
      | tdict fields => exact iht fields rfl
      | pstr => exact ⟨fun hc => by simp at hc, fun hok => by simp at hok⟩
      | pint => exact ⟨fun hc => by simp at hc, fun hok => by simp at hok⟩
      | pbool => exact ⟨fun hc => by simp at hc, fun hok => by simp at hok⟩
      | pfloat => exact ⟨fun hc => by simp at hc, fun hok => by simp at hok⟩

mutual

lemma vd_spec_sound (ty : PyType) (d : PyVal) (req : List String) :
    (validateDict d ty req = .error .valueError → specVE d ty req = true) ∧
    (validateDict d ty req = .ok () → specVE d ty req = false) := by
  cases d with
  | pydict entries =>
    exact vd_dict_sound entries ty req fun fields hty =>
      vf_spec_sound fields entries
  | pynone =>
    exact ⟨fun _ => by rw [specVE], fun hok => by
      rw [validateDict] at hok; exact Except.noConfusion hok⟩
  | pystr s =>
    exact ⟨fun _ => by rw [specVE], fun hok => by
      rw [validateDict] at hok; exact Except.noConfusion hok⟩
  | pyint n =>
    exact ⟨fun _ => by rw [specVE], fun hok => by
      rw [validateDict] at hok; exact Except.noConfusion hok⟩
  | pybool b =>
    exact ⟨fun _ => by rw [specVE], fun hok => by
      rw [validateDict] at hok; exact Except.noConfusion hok⟩
  | pyfloat q =>
    exact ⟨fun _ => by rw [specVE], fun hok => by
      rw [validateDict] at hok; exact Except.noConfusion hok⟩
termination_by sizeOf ty

lemma vf_spec_sound (l : List (String × PyType)) (entries : List (String × PyVal)) :
    (validateFields entries l = .error .valueError → specVEFields entries l = true) ∧
    (validateFields entries l = .ok () → specVEFields entries l = false) := by
  cases l with
  | nil =>
    exact ⟨fun hc => by rw [validateFields] at hc; exact Except.noConfusion hc,
      fun _ => by rw [specVEFields]⟩
  | cons hd rest =>
    obtain ⟨fname, fty⟩ := hd
    exact vf_cons_sound entries fname fty rest
      (fun ffields ventries hty hv =>
        vd_spec_sound (.tdict ffields) (.pydict ventries) (ffields.map Prod.fst))
      (vf_spec_sound rest entries)
termination_by sizeOf l

end

/-- C10 (amended): `validate_dict` raises `ValueError` only when one of
the claim's conditions holds (value not a dict, required field absent,
unexpected field present, non-dict field of mismatched runtime type,
recursively within nested dict fields — `specVE`), and whenever it
accepts, none of those conditions holds and `load_scenario` returns the
loaded scenario unchanged.  The converse of the claim's "if and only if"
fails: a dict value sitting in a field annotated with a non-dict type
makes `validate_dict` die with `AttributeError` (from
`field_type.__required_keys__`) instead of raising `ValueError` or
returning. -/
theorem validate_dict_spec (d : PyVal) (ty : PyType) (req : List String) :
    (validateDict d ty req = .error .valueError → specVE d ty req = true) ∧
    (validateDict d ty req = .ok () → specVE d ty req = false) ∧
    (validateDict d scenarioTy scenarioKeys = .ok () → loadScenario d = .ok d) := by
  refine ⟨(vd_spec_sound ty d req).1, (vd_spec_sound ty d req).2, fun h => ?_⟩
  unfold loadScenario
  rw [h]

/-- C10 witness for `validate_dict_spec`: a fully well-formed scenario
satisfies none of the `ValueError` conditions and is returned
unchanged. -/
theorem validate_dict_spec_witness :
    specVE goodScenario scenarioTy scenarioKeys = false ∧
    loadScenario goodScenario = .ok goodScenario := by
  have h := validate_dict_spec goodScenario scenarioTy scenarioKeys
  exact ⟨h.2.1 rfl, h.2.2 rfl⟩

/-- C10 counterexample: `badScenario` holds a dict in the `str`-annotated
field `io_params.network_path`.  `validate_dict` raises `AttributeError`
— not `ValueError` — so by the claim's own reading no `ValueError` is
raised, yet `load_scenario` does not return the loaded scenario: the
claim's "when no ValueError is raised, load_scenario returns the loaded
scenario unchanged" is false at this input. -/
theorem validate_attribute_error_cex :
    validateDict badScenario scenarioTy scenarioKeys = .error .attributeError ∧
    VErr.attributeError ≠ VErr.valueError ∧
    loadScenario badScenario = .error .attributeError ∧
    loadScenario badScenario ≠ .ok badScenario := by
  refine ⟨rfl, by decide, rfl, fun h => ?_⟩
  rw [show loadScenario badScenario = .error .attributeError from rfl] at h
  exact Except.noConfusion h
